import Mathlib

/-!
Verification of the memory-benchmark toolchain of the `algebra-lineare`
repository (src/graphics.py, src/mem_profiler.py, src/scratch.py).

Conventions of the embedding:
* floating point quantities (timestamps, seconds, kilobytes, relative errors)
  are modelled as rationals `ℚ`; byte counts from `psutil` as integers `ℤ`;
* a pandas reduction (`Series.max()`, `Series.min()`, `np.mean` of an array)
  applied to an empty selection yields the missing value NaN, modelled as
  `Option.none`; on a non-empty selection it yields `some` of the number;
* a Python exception that a function does not catch is modelled with
  `Except`: `.error` is the exception escaping, `.ok` a normal return.
-/

namespace AlgebraLineare

/-! ## Sample Store (one row of the memory log CSV)

A row of the log written by src/mem_profiler.py and read back by
src/graphics.py: fields `timestamp`, `memory_physical(kB)`,
`memory_virtual(kB)`. -/

structure Sample where
  timestamp : ℚ
  memory_physical : ℚ
  memory_virtual : ℚ
deriving DecidableEq, Repr

/-! ## Time-Window Correlator (src/graphics.py) -/

/-- The samples of `mem_log` whose timestamp lies in the inclusive window
`[t_start, t_stop]`: the selection both correlator functions of
src/graphics.py perform (`calculate_col_p_memory_maxmin` with one conjunctive
`DataFrame.query`, `calculate_col_v_memory_mean` with two successive boolean
filters). -/
def windowSamples (t_start t_stop : ℚ) (mem_log : List Sample) : List Sample :=
  mem_log.filter (fun s => decide (t_start ≤ s.timestamp) && decide (s.timestamp ≤ t_stop))

/-- `calculate_col_v_memory_mean` of src/graphics.py (lines 24-30).  Despite
its name it computes `max - min` of the virtual-memory column over the rows
with `t_start <= timestamp <= t_stop` (two successive filters, then
`.max() - .min()`).  On an empty selection pandas `max`/`min` return the
missing value NaN, modelled as `none`. -/
def calculate_col_v_memory_mean (t_start t_stop : ℚ) (mem_log : List Sample) : Option ℚ :=
  let memory_col := mem_log.filter (fun s => decide (t_start ≤ s.timestamp))
  let memory_col := memory_col.filter (fun s => decide (s.timestamp ≤ t_stop))
  match (memory_col.map Sample.memory_virtual).max?,
        (memory_col.map Sample.memory_virtual).min? with
  | some mx, some mn => some (mx - mn)
  | _, _ => none

/-- `calculate_col_p_memory_maxmin` of src/graphics.py (lines 33-56):
`mem_log.query('timestamp >= @t_start and timestamp <= @t_stop')`, then
`max - min` of the physical-memory column.  Empty selection gives NaN,
modelled as `none`. -/
def calculate_col_p_memory_maxmin (t_start t_stop : ℚ) (mem_log : List Sample) : Option ℚ :=
  let m := mem_log.filter
    (fun s => decide (t_start ≤ s.timestamp) && decide (s.timestamp ≤ t_stop))
  match (m.map Sample.memory_physical).max?,
        (m.map Sample.memory_physical).min? with
  | some mx, some mn => some (mx - mn)
  | _, _ => none

lemma calculate_col_p_eq_match (t_start t_stop : ℚ) (mem_log : List Sample) :
    calculate_col_p_memory_maxmin t_start t_stop mem_log =
      match ((windowSamples t_start t_stop mem_log).map Sample.memory_physical).max?,
            ((windowSamples t_start t_stop mem_log).map Sample.memory_physical).min? with
      | some mx, some mn => some (mx - mn)
      | _, _ => none := rfl

/-- The two successive filters of `calculate_col_v_memory_mean` select the
same rows as the conjunctive window query. -/
lemma double_filter_eq_windowSamples (t_start t_stop : ℚ) (mem_log : List Sample) :
    ((mem_log.filter (fun s => decide (t_start ≤ s.timestamp))).filter
        (fun s => decide (s.timestamp ≤ t_stop))) =
      windowSamples t_start t_stop mem_log := by
  rw [List.filter_filter, windowSamples]
  exact List.filter_congr (fun a _ => Bool.and_comm _ _)

lemma calculate_col_v_eq_match (t_start t_stop : ℚ) (mem_log : List Sample) :
    calculate_col_v_memory_mean t_start t_stop mem_log =
      match ((windowSamples t_start t_stop mem_log).map Sample.memory_virtual).max?,
            ((windowSamples t_start t_stop mem_log).map Sample.memory_virtual).min? with
      | some mx, some mn => some (mx - mn)
      | _, _ => none := by
  simp only [calculate_col_v_memory_mean]
  rw [double_filter_eq_windowSamples]

lemma exists_max?_of_ne_nil {xs : List ℚ} (h : xs ≠ []) : ∃ mx, xs.max? = some mx := by
  cases hx : xs.max? with
  | none => exact absurd (List.max?_eq_none_iff.mp hx) h
  | some mx => exact ⟨mx, rfl⟩

lemma exists_min?_of_ne_nil {xs : List ℚ} (h : xs ≠ []) : ∃ mn, xs.min? = some mn := by
  cases hx : xs.min? with
  | none => exact absurd (List.min?_eq_none_iff.mp hx) h
  | some mn => exact ⟨mn, rfl⟩

/-- C1. For every sample log and window `[t0, t1]` that contains at least one
sample, the correlator's delta is `max(metric) - min(metric)` over exactly the
samples whose timestamp lies in `[t0, t1]` inclusive, independently for
physical memory (`calculate_col_p_memory_maxmin`) and virtual memory
(`calculate_col_v_memory_mean`). -/
theorem correlator_delta_is_window_maxmin (t0 t1 : ℚ) (mem_log : List Sample)
    (h : windowSamples t0 t1 mem_log ≠ []) :
    (∃ mx mn, ((windowSamples t0 t1 mem_log).map Sample.memory_physical).max? = some mx ∧
      ((windowSamples t0 t1 mem_log).map Sample.memory_physical).min? = some mn ∧
      calculate_col_p_memory_maxmin t0 t1 mem_log = some (mx - mn)) ∧
    (∃ mx mn, ((windowSamples t0 t1 mem_log).map Sample.memory_virtual).max? = some mx ∧
      ((windowSamples t0 t1 mem_log).map Sample.memory_virtual).min? = some mn ∧
      calculate_col_v_memory_mean t0 t1 mem_log = some (mx - mn)) := by
  have hp : (windowSamples t0 t1 mem_log).map Sample.memory_physical ≠ [] := by
    simpa using h
  have hv : (windowSamples t0 t1 mem_log).map Sample.memory_virtual ≠ [] := by
    simpa using h
  obtain ⟨mxp, hmxp⟩ := exists_max?_of_ne_nil hp
  obtain ⟨mnp, hmnp⟩ := exists_min?_of_ne_nil hp
  obtain ⟨mxv, hmxv⟩ := exists_max?_of_ne_nil hv
  obtain ⟨mnv, hmnv⟩ := exists_min?_of_ne_nil hv
  refine ⟨⟨mxp, mnp, hmxp, hmnp, ?_⟩, ⟨mxv, mnv, hmxv, hmnv, ?_⟩⟩
  · rw [calculate_col_p_eq_match, hmxp, hmnp]
  · rw [calculate_col_v_eq_match, hmxv, hmnv]

/-- Witness for C1: a concrete three-sample log and the window `[1, 3]`
holding two of its samples. -/
def witnessLogC1 : List Sample :=
  [⟨0, 1000, 2000⟩, ⟨2, 1500, 2600⟩, ⟨3, 1200, 2400⟩, ⟨5, 1100, 2200⟩]

theorem correlator_delta_is_window_maxmin_witness :
    windowSamples 1 3 witnessLogC1 ≠ [] ∧
    ((∃ mx mn, ((windowSamples 1 3 witnessLogC1).map Sample.memory_physical).max? = some mx ∧
      ((windowSamples 1 3 witnessLogC1).map Sample.memory_physical).min? = some mn ∧
      calculate_col_p_memory_maxmin 1 3 witnessLogC1 = some (mx - mn)) ∧
    (∃ mx mn, ((windowSamples 1 3 witnessLogC1).map Sample.memory_virtual).max? = some mx ∧
      ((windowSamples 1 3 witnessLogC1).map Sample.memory_virtual).min? = some mn ∧
      calculate_col_v_memory_mean 1 3 witnessLogC1 = some (mx - mn))) :=
  ⟨by decide, correlator_delta_is_window_maxmin 1 3 witnessLogC1 (by decide)⟩

/-- C2. For every window containing no samples, both correlator functions
return the no-coverage marker `none` (the NaN a pandas reduction of an empty
selection produces), which is distinct from every numeric delta, in
particular from a zero delta. -/
theorem correlator_no_coverage (t0 t1 : ℚ) (mem_log : List Sample)
    (h : windowSamples t0 t1 mem_log = []) :
    calculate_col_p_memory_maxmin t0 t1 mem_log = none ∧
    calculate_col_v_memory_mean t0 t1 mem_log = none ∧
    (∀ q : ℚ, calculate_col_p_memory_maxmin t0 t1 mem_log ≠ some q) ∧
    (∀ q : ℚ, calculate_col_v_memory_mean t0 t1 mem_log ≠ some q) := by
  have hp : calculate_col_p_memory_maxmin t0 t1 mem_log = none := by
    rw [calculate_col_p_eq_match, h]; rfl
  have hv : calculate_col_v_memory_mean t0 t1 mem_log = none := by
    rw [calculate_col_v_eq_match, h]; rfl
  refine ⟨hp, hv, ?_, ?_⟩
  · intro q hq; rw [hp] at hq; exact Option.noConfusion hq
  · intro q hq; rw [hv] at hq; exact Option.noConfusion hq

theorem correlator_no_coverage_witness :
    windowSamples 10 11 witnessLogC1 = [] ∧
    (calculate_col_p_memory_maxmin 10 11 witnessLogC1 = none ∧
    calculate_col_v_memory_mean 10 11 witnessLogC1 = none ∧
    (∀ q : ℚ, calculate_col_p_memory_maxmin 10 11 witnessLogC1 ≠ some q) ∧
    (∀ q : ℚ, calculate_col_v_memory_mean 10 11 witnessLogC1 ≠ some q)) :=
  ⟨by decide, correlator_no_coverage 10 11 witnessLogC1 (by decide)⟩

/-! ## Resource Sampler (src/mem_profiler.py)

The sampling loop of `__main__`: each tick appends one row to the in-memory
buffer `rows`, increments `num_rows`, and when `num_rows == max_row_buffer`
writes the whole buffer to the CSV file and empties it.  The loop only ends
through the `except (ProcessLookupError, NoSuchProcess, AccessDenied,
KeyboardInterrupt)` handler, which writes any non-empty remainder of the
buffer and closes the file.  The progress print every 20 samples and the
`time.sleep` between polls have no effect on the persisted log and are not
modelled. -/

def max_row_buffer : ℕ := 1000

/-- The sampler's mutable state: the in-memory buffer `rows`, its length
counter `num_rows`, and the rows already written to the CSV file (`log`). -/
structure SamplerState where
  rows : List Sample
  num_rows : ℕ
  log : List Sample
deriving DecidableEq, Repr

/-- One iteration of the `while True` loop, given the sample the OS query
returned on this tick. -/
def sampleStep (st : SamplerState) (row : Sample) : SamplerState :=
  let rows := st.rows ++ [row]
  let num_rows := st.num_rows + 1
  if num_rows = max_row_buffer then
    { rows := [], num_rows := 0, log := st.log ++ rows }
  else
    { rows := rows, num_rows := num_rows, log := st.log }

/-- The sampling loop run over a finite sequence of ticks (the samples the OS
returned before the terminating event). -/
def samplerRun (samples : List Sample) (st : SamplerState) : SamplerState :=
  samples.foldl sampleStep st

def initialSamplerState : SamplerState := { rows := [], num_rows := 0, log := [] }

/-- The `except` handler: `if rows: csv_writer.writerows(rows)`, then
`outfile.close()`.  Returns the content of the closed log. -/
def samplerShutdown (st : SamplerState) : List Sample :=
  if st.rows.isEmpty then st.log else st.log ++ st.rows

lemma samplerShutdown_eq (st : SamplerState) :
    samplerShutdown st = st.log ++ st.rows := by
  unfold samplerShutdown
  cases hr : st.rows with
  | nil => simp
  | cons a t => simp

/-- Invariant of the sampling loop: the counter mirrors the buffer length,
the buffer stays strictly below capacity, the persisted log grows only by
whole batches, and log-then-buffer always equals everything sampled so far,
in order. -/
lemma samplerRun_invariant (samples : List Sample) : ∀ st : SamplerState,
    st.num_rows = st.rows.length → st.rows.length < max_row_buffer →
    st.log.length % max_row_buffer = 0 →
    (samplerRun samples st).log ++ (samplerRun samples st).rows
        = st.log ++ st.rows ++ samples ∧
    (samplerRun samples st).num_rows = (samplerRun samples st).rows.length ∧
    (samplerRun samples st).rows.length < max_row_buffer ∧
    (samplerRun samples st).log.length % max_row_buffer = 0 := by
  induction samples with
  | nil =>
    intro st h1 h2 h3
    exact ⟨by simp [samplerRun], h1, h2, h3⟩
  | cons s rest ih =>
    intro st h1 h2 h3
    have hrun : samplerRun (s :: rest) st = samplerRun rest (sampleStep st s) := rfl
    by_cases hc : st.num_rows + 1 = max_row_buffer
    · have hstep : sampleStep st s =
          { rows := [], num_rows := 0, log := st.log ++ (st.rows ++ [s]) } := by
        simp [sampleStep, hc]
      have hlen : (st.log ++ (st.rows ++ [s])).length % max_row_buffer = 0 := by
        have : (st.rows ++ [s]).length = max_row_buffer := by
          simp [← h1]
          omega
        simp [List.length_append, this, Nat.add_mod, h3]
      obtain ⟨i1, i2, i3, i4⟩ := ih (sampleStep st s)
        (by rw [hstep]; rfl)
        (by rw [hstep]; show ([] : List Sample).length < max_row_buffer; decide)
        (by rw [hstep]; exact hlen)
      refine ⟨?_, by rwa [← hrun] at i2, by rwa [← hrun] at i3, by rwa [← hrun] at i4⟩
      rw [hrun, i1, hstep]
      simp
    · have hstep : sampleStep st s =
          { rows := st.rows ++ [s], num_rows := st.num_rows + 1, log := st.log } := by
        simp [sampleStep, hc]
      have hlt : (st.rows ++ [s]).length < max_row_buffer := by
        have : (st.rows ++ [s]).length = st.num_rows + 1 := by simp [← h1]
        omega
      obtain ⟨i1, i2, i3, i4⟩ := ih (sampleStep st s)
        (by rw [hstep]; simp [h1]) (by rw [hstep]; exact hlt)
        (by rw [hstep]; exact h3)
      refine ⟨?_, by rwa [← hrun] at i2, by rwa [← hrun] at i3, by rwa [← hrun] at i4⟩
      rw [hrun, i1, hstep]
      simp

/-- C6. A sampler run over any finite sequence of ticks, terminated by the
`except` handler (interrupt or target process vanishing), persists exactly
the sampled records, in original order, with none lost or duplicated; before
the terminating flush the durable log always consists of whole flushed
batches (its length is a multiple of the buffer capacity), the partial
buffer stays below capacity, and the capacity is `B = 1000`. -/
theorem sampler_persists_every_sample (samples : List Sample) :
    samplerShutdown (samplerRun samples initialSamplerState) = samples ∧
    (samplerRun samples initialSamplerState).log.length % max_row_buffer = 0 ∧
    (samplerRun samples initialSamplerState).rows.length < max_row_buffer ∧
    max_row_buffer = 1000 := by
  obtain ⟨h1, _, h3, h4⟩ := samplerRun_invariant samples initialSamplerState
    rfl (by decide) (by decide)
  refine ⟨?_, h4, h3, rfl⟩
  rw [samplerShutdown_eq, h1]
  simp [initialSamplerState]

/-! ## Sampler destination path (src/mem_profiler.py, lines 27-31)

```
system = 'ubuntu' if platform.system == 'Linux' else 'windows'
filepath = system + "-" + filepath
if not '.csv' in filepath:
    filepath = filepath + '.csv'
```
Paths are modelled as lists of characters; Python's substring operator `in`
is `substringOf`. -/

/-- Python's `needle in haystack` on strings: `needle` occurs as a contiguous
substring of `haystack`. -/
def substringOf (needle : List Char) : List Char → Bool
  | [] => needle.isPrefixOf []
  | c :: t => needle.isPrefixOf (c :: t) || substringOf needle t

/-- The condition `platform.system == 'Linux'` of line 27.  `platform.system`
is a function object and is never called here (the call would be
`platform.system()`); comparing the function itself with the string `'Linux'`
is `False` on every operating system. -/
def platform_system_eq_linux : Bool := false

/-- The destination log path the sampler actually opens, as computed from the
`output_path` CLI argument by lines 27-31. -/
def sampler_dest_path (output_path : List Char) : List Char :=
  let system := if platform_system_eq_linux then "ubuntu".toList else "windows".toList
  let filepath := system ++ "-".toList ++ output_path
  if substringOf ".csv".toList filepath then filepath else filepath ++ ".csv".toList

/-- A needle starting with a character absent from `w` occurs in `w ++ p`
exactly when it occurs in `p`. -/
lemma substringOf_append_left (a : Char) (n : List Char) (w p : List Char)
    (hw : ∀ c ∈ w, (a == c) = false) :
    substringOf (a :: n) (w ++ p) = substringOf (a :: n) p := by
  induction w with
  | nil => rfl
  | cons c t ih =>
    have hc : (a == c) = false := hw c (List.mem_cons_self c t)
    have ht : ∀ c ∈ t, (a == c) = false := fun x hx => hw x (List.mem_cons_of_mem c hx)
    calc substringOf (a :: n) ((c :: t) ++ p)
        = ((a :: n).isPrefixOf (c :: (t ++ p)) || substringOf (a :: n) (t ++ p)) := rfl
      _ = substringOf (a :: n) p := by
          rw [List.isPrefixOf_cons₂, hc, Bool.false_and, Bool.false_or, ih ht]

/-- C9. For every `output_path` argument, the destination log path the
sampler uses is the argument prefixed with `windows-` — on every host
operating system, because `platform.system` is compared as a function object
instead of being called — with `.csv` appended exactly when the argument does
not already contain `.csv`. -/
theorem sampler_path_always_windows_prefixed (output_path : List Char) :
    sampler_dest_path output_path =
      if substringOf ".csv".toList output_path
      then "windows-".toList ++ output_path
      else "windows-".toList ++ output_path ++ ".csv".toList := by
  have hpre : "windows".toList ++ "-".toList ++ output_path
      = "windows-".toList ++ output_path := rfl
  have hsub : substringOf ".csv".toList ("windows-".toList ++ output_path)
      = substringOf ".csv".toList output_path := by
    have : (".csv".toList) = '.' :: "csv".toList := rfl
    rw [this]
    exact substringOf_append_left '.' "csv".toList "windows-".toList output_path
      (by decide)
  simp only [sampler_dest_path, platform_system_eq_linux, if_neg Bool.false_ne_true,
    Bool.false_eq_true, if_false, hpre, hsub]

/-! ## Benchmark Driver (src/scratch.py, `solve_with_profiling` and `main`)

The solver call, the OS clock and the process-memory queries are external:
one iteration's interaction with them is an `IterEnv`.  An uncaught Python
exception is an `Except.error`. -/

inductive SolverLibrary
  | mkl
  | superlu
  | umfpack
deriving DecidableEq, Repr

/-- `MemoryError` raised by a solver call that is not caught aborts the run. -/
inductive DriverError
  | memoryError
deriving DecidableEq, Repr

inductive IterOutcome
  | success
  | outOfMemory
deriving DecidableEq, Repr

/-- What the external world does during one `solve_with_profiling` call:
whether the solver returns or raises `MemoryError` (`outcome`),
`(end_time - start_time).total_seconds()` (`elapsed_time`),
`end_memory.rss - start_memory.rss` (`delta_rss`),
`end_memory.vms - start_memory.vms` (`delta_vms`), the value
`get_relative_error(xe, x)` computes for the returned solution
(`relative_error`), and `A.shape` (`shape`). -/
structure IterEnv where
  outcome : IterOutcome
  elapsed_time : ℚ
  delta_rss : ℤ
  delta_vms : ℤ
  relative_error : ℚ
  shape : ℕ × ℕ
deriving DecidableEq, Repr

/-- The dictionary `solve_with_profiling` returns for one iteration. -/
structure ResultRecord where
  elapsed_time : ℚ
  memory_physical : ℤ
  memory_virtual : ℤ
  relative_error : ℚ
  solver_library : SolverLibrary
  matrix_dimensions : ℕ × ℕ
deriving DecidableEq, Repr

/-- `solve_with_profiling` of src/scratch.py (lines 99-151).  Only the
`umfpack` branch wraps the solver call in `try/except MemoryError`, setting
`umfpack_mem_error` and substituting the sentinel `-1` for elapsed time, both
memory deltas and the relative error; in the `mkl` and `superlu` branches a
`MemoryError` from the solver propagates out of the function uncaught. -/
def solve_with_profiling (env : IterEnv) (solver_library : SolverLibrary) :
    Except DriverError ResultRecord :=
  match solver_library with
  | .mkl =>
    match env.outcome with
    | .outOfMemory => .error .memoryError
    | .success =>
      .ok { elapsed_time := env.elapsed_time, memory_physical := env.delta_rss,
            memory_virtual := env.delta_vms, relative_error := env.relative_error,
            solver_library := .mkl, matrix_dimensions := env.shape }
  | .superlu =>
    match env.outcome with
    | .outOfMemory => .error .memoryError
    | .success =>
      .ok { elapsed_time := env.elapsed_time, memory_physical := env.delta_rss,
            memory_virtual := env.delta_vms, relative_error := env.relative_error,
            solver_library := .superlu, matrix_dimensions := env.shape }
  | .umfpack =>
    match env.outcome with
    | .outOfMemory =>
      .ok { elapsed_time := -1, memory_physical := -1,
            memory_virtual := -1, relative_error := -1,
            solver_library := .umfpack, matrix_dimensions := env.shape }
    | .success =>
      .ok { elapsed_time := env.elapsed_time, memory_physical := env.delta_rss,
            memory_virtual := env.delta_vms, relative_error := env.relative_error,
            solver_library := .umfpack, matrix_dimensions := env.shape }

/-- The iteration loop of `main` (lines 183-203) for one unit, flattened over
the sequence of solver invocations it performs in order: each iteration's
result is appended to the unit's list; an exception escaping
`solve_with_profiling` propagates and aborts the whole loop, losing the
records of that run. -/
def runAll (solver_library : SolverLibrary) (envs : List IterEnv) :
    Except DriverError (List ResultRecord) :=
  match envs with
  | [] => .ok []
  | e :: rest =>
    match solve_with_profiling e solver_library with
    | .error err => .error err
    | .ok r =>
      match runAll solver_library rest with
      | .error err => .error err
      | .ok rs => .ok (r :: rs)

/-! ## Aggregator (src/scratch.py, `postprocess` and `log_results`) -/

/-- `postprocess` restricted to one unit: the list of per-iteration result
dictionaries transposed into one dictionary of per-field lists. -/
structure UnitResults where
  elapsed_time : List ℚ
  memory_physical : List ℤ
  relative_error : List ℚ
  solver_library : List SolverLibrary
  matrix_dimensions : List (ℕ × ℕ)
deriving DecidableEq, Repr

def postprocess (rs : List ResultRecord) : UnitResults :=
  { elapsed_time := rs.map ResultRecord.elapsed_time
    memory_physical := rs.map ResultRecord.memory_physical
    relative_error := rs.map ResultRecord.relative_error
    solver_library := rs.map ResultRecord.solver_library
    matrix_dimensions := rs.map ResultRecord.matrix_dimensions }

/-- `np.mean` of a list of numbers: NaN (`none`) on an empty list. -/
def npMean (xs : List ℚ) : Option ℚ :=
  match xs with
  | [] => none
  | _ => some (xs.sum / (xs.length : ℚ))

/-- `np.var` of a list of numbers (population variance, the numpy default):
NaN (`none`) on an empty list. -/
def npVar (xs : List ℚ) : Option ℚ :=
  match npMean xs with
  | none => none
  | some m => some ((xs.map (fun x => (x - m) ^ 2)).sum / (xs.length : ℚ))

/-- One row of the aggregate CSV written by `log_results`.  The constant
columns `type` (always `'def_pos'`), `system` (host OS label) and `language`
(always `'Python'`) carry no per-unit information and are not modelled. -/
structure CsvRow where
  matrix : String
  dimensions : Option (ℕ × ℕ)
  iter : ℕ
  time_mean : Option ℚ
  time_variance : Option ℚ
  mem_mean : Option ℚ
  mem_variance : Option ℚ
  rel_error : Option ℚ
  library : Option SolverLibrary
deriving DecidableEq, Repr

/-- `memory[memory > 0]`: the strictly positive entries of the
physical-memory column, as the rationals `np.mean`/`np.var` are applied to. -/
def positiveMemories (memory : List ℤ) : List ℚ :=
  (memory.filter (fun d => decide (0 < d))).map (fun d : ℤ => (d : ℚ))

/-- The `csv_row` dictionary built in the loop body of `log_results` (lines
252-275): `iter` is the `num_runs` argument; `time_mean`/`time_variance` are
`np.mean`/`np.var` of the whole `elapsed_time` list; `mem_mean`/`mem_variance`
of `memory[memory > 0]`; `dimensions`, `rel_error` and `library` are entry 0
of their lists (`head?`; Python `[0]` raises IndexError on an empty list, a
case that cannot arise since every key of a results dictionary holds one
entry per completed run). -/
def buildCsvRow (matrix_name : String) (u : UnitResults) (num_runs : ℕ) : CsvRow :=
  { matrix := matrix_name
    dimensions := u.matrix_dimensions.head?
    iter := num_runs
    time_mean := npMean u.elapsed_time
    time_variance := npVar u.elapsed_time
    mem_mean := npMean (positiveMemories u.memory_physical)
    mem_variance := npVar (positiveMemories u.memory_physical)
    rel_error := u.relative_error.head?
    library := u.solver_library.head? }

/-- Python dictionary lookup `results[matrix_name]`: `none` models the
`KeyError` raised when the key is absent. -/
def lookupResults (results : List (String × UnitResults)) (name : String) :
    Option UnitResults :=
  match results with
  | [] => none
  | (k, v) :: rest => if k = name then some v else lookupResults rest name

/-- The row-building loop of `log_results`: one `csv_row` per key of the
iterated dictionary, each looking its key up in `results`; a missing key
raises `KeyError` (modelled as `.error`), in which case the loop aborts
before anything is written to the file. -/
def log_results_rows (keys : List String) (results : List (String × UnitResults))
    (num_runs : ℕ) : Except String (List CsvRow) :=
  match keys with
  | [] => .ok []
  | name :: rest =>
    match lookupResults results name with
    | none => .error ("KeyError: " ++ name)
    | some u =>
      match log_results_rows rest results num_runs with
      | .error e => .error e
      | .ok rows => .ok (buildCsvRow name u num_runs :: rows)

/-- `log_results` of src/scratch.py (lines 225-282).  `results` and
`num_runs` are its parameters; `results_sdf` is the GLOBAL dictionary of
`__main__` (line 304) that the loop header `for matrix_name in results_sdf`
(line 252) actually iterates over, while every field access inside the loop
reads `results[matrix_name]`.  `if not results: return None` writes
nothing. -/
def log_results (results_sdf : List (String × UnitResults))
    (results : List (String × UnitResults)) (num_runs : ℕ) :
    Except String (List CsvRow) :=
  if results.isEmpty then .ok []
  else log_results_rows (results_sdf.map Prod.fst) results num_runs

/-! ## Driver and aggregator properties -/

/-- The record `solve_with_profiling` returns for an `umfpack` iteration that
raised `MemoryError`: sentinel `-1` for elapsed time, both memory deltas and
the relative error (the matrix dimensions are still the real ones). -/
def oomSentinelRecord (shape : ℕ × ℕ) : ResultRecord :=
  { elapsed_time := -1, memory_physical := -1, memory_virtual := -1,
    relative_error := -1, solver_library := .umfpack, matrix_dimensions := shape }

/-- The record an `umfpack` iteration produces from its environment. -/
def umfpackRecord (e : IterEnv) : ResultRecord :=
  match e.outcome with
  | .outOfMemory => oomSentinelRecord e.shape
  | .success =>
    { elapsed_time := e.elapsed_time, memory_physical := e.delta_rss,
      memory_virtual := e.delta_vms, relative_error := e.relative_error,
      solver_library := .umfpack, matrix_dimensions := e.shape }

lemma solve_with_profiling_umfpack (e : IterEnv) :
    solve_with_profiling e .umfpack = .ok (umfpackRecord e) := by
  cases he : e.outcome <;>
    simp [solve_with_profiling, umfpackRecord, oomSentinelRecord, he]

/-- Under `umfpack` the driver loop never aborts: it returns one record per
iteration, in order. -/
lemma runAll_umfpack (envs : List IterEnv) :
    runAll .umfpack envs = .ok (envs.map umfpackRecord) := by
  induction envs with
  | nil => rfl
  | cons e rest ih => simp [runAll, solve_with_profiling_umfpack, ih]

/-- A run in which the first iteration raises `MemoryError`. -/
def envOOM : IterEnv :=
  { outcome := .outOfMemory, elapsed_time := 7, delta_rss := 5000,
    delta_vms := 6000, relative_error := 0, shape := (2, 2) }

/-- A successful iteration. -/
def envOK : IterEnv :=
  { outcome := .success, elapsed_time := 2, delta_rss := 4096,
    delta_vms := 8192, relative_error := 1/1000, shape := (2, 2) }

/-- C3 counterexample: under the `mkl` (and `superlu`) library an iteration
that signals out-of-memory is NOT recorded as a failed iteration — the
uncaught `MemoryError` aborts the run, and the following iteration is never
reached. -/
theorem driver_mkl_superlu_oom_aborts_cex :
    runAll .mkl [envOOM, envOK] = .error .memoryError ∧
    runAll .superlu [envOOM, envOK] = .error .memoryError := by
  exact ⟨rfl, rfl⟩

/-- C3 (amended). Only under the `umfpack` library is an out-of-memory
iteration recorded as a failed iteration with sentinel `-1` values for
elapsed time, memory and relative error, with the run continuing through the
remaining iterations; under `mkl` and `superlu` the `MemoryError` escapes
uncaught and aborts the run. -/
theorem driver_oom_recorded_only_under_umfpack (e : IterEnv) (rest : List IterEnv)
    (h : e.outcome = .outOfMemory) :
    (∃ rs, runAll .umfpack (e :: rest) = .ok (oomSentinelRecord e.shape :: rs) ∧
      rs.length = rest.length) ∧
    runAll .mkl (e :: rest) = .error .memoryError ∧
    runAll .superlu (e :: rest) = .error .memoryError := by
  refine ⟨⟨rest.map umfpackRecord, ?_, by simp⟩, ?_, ?_⟩
  · rw [runAll_umfpack]
    simp [umfpackRecord, h]
  · simp [runAll, solve_with_profiling, h]
  · simp [runAll, solve_with_profiling, h]

theorem driver_oom_recorded_only_under_umfpack_witness :
    envOOM.outcome = .outOfMemory ∧
    ((∃ rs, runAll .umfpack (envOOM :: [envOK]) =
        .ok (oomSentinelRecord envOOM.shape :: rs) ∧ rs.length = [envOK].length) ∧
    runAll .mkl (envOOM :: [envOK]) = .error .memoryError ∧
    runAll .superlu (envOOM :: [envOK]) = .error .memoryError) :=
  ⟨rfl, driver_oom_recorded_only_under_umfpack envOOM [envOK] rfl⟩

/-- A unit whose iteration 0 failed (all sentinel `-1`) and whose iteration 1
succeeded in 2 seconds using 2048 bytes with relative error 1/1000. -/
def unitTimeMix : UnitResults :=
  { elapsed_time := [-1, 2], memory_physical := [-1, 2048],
    relative_error := [-1, 1/1000], solver_library := [.umfpack, .umfpack],
    matrix_dimensions := [(2, 2), (2, 2)] }

/-- C4 counterexample: for a 2-iteration unit whose iteration 0 failed
(sentinel elapsed `-1`) and whose iteration 1 succeeded in 2 seconds,
`time_mean` is `(-1 + 2)/2 = 1/2`, not the mean `2` over the succeeded
iterations only: the failed iteration's sentinel enters the reduction. -/
theorem aggregator_time_mean_includes_sentinels_cex :
    (buildCsvRow "m" unitTimeMix 2).time_mean = some (1/2) ∧
    ¬ ((1 : ℚ)/2 = 2) := by
  constructor
  · show npMean unitTimeMix.elapsed_time = some (1/2)
    norm_num [npMean, unitTimeMix]
  · norm_num

/-- C4 (amended). In the aggregate record of a unit, `time_mean` and
`time_variance` are `np.mean`/`np.var` over ALL iterations' elapsed values,
the `-1` sentinels of failed iterations included; `mem_mean` and
`mem_variance` are over exactly the strictly positive physical-memory deltas
(which drops the `-1` sentinels of failed iterations, but also every
non-positive delta of a succeeded one); only `iter` (the iteration count)
equals `num_runs`, counting all iterations. -/
theorem aggregator_reduces_over_all_iterations (matrix_name : String)
    (rs : List ResultRecord) (num_runs : ℕ) :
    (buildCsvRow matrix_name (postprocess rs) num_runs).time_mean
        = npMean (rs.map ResultRecord.elapsed_time) ∧
    (buildCsvRow matrix_name (postprocess rs) num_runs).time_variance
        = npVar (rs.map ResultRecord.elapsed_time) ∧
    (buildCsvRow matrix_name (postprocess rs) num_runs).mem_mean
        = npMean (positiveMemories (rs.map ResultRecord.memory_physical)) ∧
    (buildCsvRow matrix_name (postprocess rs) num_runs).mem_variance
        = npVar (positiveMemories (rs.map ResultRecord.memory_physical)) ∧
    (buildCsvRow matrix_name (postprocess rs) num_runs).iter = num_runs ∧
    (∀ d : ℤ, d ∈ (rs.map ResultRecord.memory_physical).filter (fun d => decide (0 < d))
      ↔ d ∈ rs.map ResultRecord.memory_physical ∧ 0 < d) := by
  refine ⟨rfl, rfl, rfl, rfl, rfl, ?_⟩
  intro d
  simp [List.mem_filter]

/-- The symmetric-matrix results of `__main__` (a stand-in for the global
`results_sdf`), holding one unit. -/
def unitSym : UnitResults :=
  { elapsed_time := [1], memory_physical := [100], relative_error := [1/100],
    solver_library := [.umfpack], matrix_dimensions := [(2, 2)] }

/-- The unsymmetric-matrix results passed to the second `log_results` call. -/
def unitUnsym : UnitResults :=
  { elapsed_time := [3], memory_physical := [300], relative_error := [3/100],
    solver_library := [.umfpack], matrix_dimensions := [(4, 4)] }

/-- C5 (code bug): `log_results(results_unsym, n_runs)` — the second call of
`__main__`, here with the global `results_sdf` holding the symmetric unit
`sym.mtx` and the parameter holding the requested unsymmetric unit
`unsym.mtx` — raises `KeyError` instead of emitting a record for the
requested unit: the loop iterates the keys of the global `results_sdf`
instead of its `results` parameter, so no aggregate record is ever produced
for any unsymmetric unit. -/
theorem log_results_iterates_global_not_parameter :
    log_results [("sym.mtx", unitSym)] [("unsym.mtx", unitUnsym)] 3
      = .error ("KeyError: sym.mtx") := by
  rfl

/-- A 5-iteration unit whose iteration 0 failed out-of-memory (sentinel `-1`)
and whose iterations 1-4 each succeeded in 10 seconds. -/
def unitWarmupFailed : UnitResults :=
  { elapsed_time := [-1, 10, 10, 10, 10], memory_physical := [-1, 1, 1, 1, 1],
    relative_error := [-1, 1/1000, 1/1000, 1/1000, 1/1000],
    solver_library := [.umfpack, .umfpack, .umfpack, .umfpack, .umfpack],
    matrix_dimensions := [(2, 2), (2, 2), (2, 2), (2, 2), (2, 2)] }

/-- C7 counterexample: for a 5-iteration unit with iteration 0 failed and
iterations 1-4 at 10 seconds each, `time_mean` is
`(-1 + 10 + 10 + 10 + 10)/5 = 39/5`, not the `10` that an `exclude_first`
reduction over iterations {2, 3, 4} would give: the aggregator has no
reduction policy, no metadata field recording one, and drops nothing. -/
theorem aggregator_no_exclude_first_policy_cex :
    (buildCsvRow "m" unitWarmupFailed 5).time_mean = some (39/5) ∧
    ¬ ((39 : ℚ)/5 = 10) := by
  constructor
  · show npMean unitWarmupFailed.elapsed_time = some (39/5)
    norm_num [npMean, unitWarmupFailed]
  · norm_num

/-- C7 (amended). The aggregator offers no selectable reduction policy and
records none: for a 5-iteration unit benchmarked under `umfpack` whose
iteration 0 failed out-of-memory and whose iterations 1-4 succeeded,
`time_mean` is `np.mean` over all five recorded elapsed values — the `-1`
sentinel of iteration 0 and the elapsed times of iterations 1, 2, 3 and 4 —
never over iterations {2, 3, 4} only. -/
theorem aggregator_time_mean_over_all_five_values (matrix_name : String)
    (e a1 a2 a3 a4 : IterEnv) (h : e.outcome = .outOfMemory)
    (h1 : a1.outcome = .success) (h2 : a2.outcome = .success)
    (h3 : a3.outcome = .success) (h4 : a4.outcome = .success) :
    ∃ rs, runAll .umfpack [e, a1, a2, a3, a4] = .ok rs ∧
      (buildCsvRow matrix_name (postprocess rs) 5).time_mean =
        npMean [(-1 : ℚ), a1.elapsed_time, a2.elapsed_time,
                a3.elapsed_time, a4.elapsed_time] := by
  refine ⟨_, runAll_umfpack _, ?_⟩
  simp [buildCsvRow, postprocess, umfpackRecord, oomSentinelRecord, h, h1, h2, h3, h4]

theorem aggregator_time_mean_over_all_five_values_witness :
    envOOM.outcome = .outOfMemory ∧ envOK.outcome = .success ∧
    (∃ rs, runAll .umfpack [envOOM, envOK, envOK, envOK, envOK] = .ok rs ∧
      (buildCsvRow "m" (postprocess rs) 5).time_mean =
        npMean [(-1 : ℚ), envOK.elapsed_time, envOK.elapsed_time,
                envOK.elapsed_time, envOK.elapsed_time]) :=
  ⟨rfl, rfl, aggregator_time_mean_over_all_five_values "m" envOOM envOK envOK envOK envOK
    rfl rfl rfl rfl rfl⟩

/-- A unit whose iteration 0 failed (sentinel relative error `-1`) and whose
iteration 1 succeeded with relative error 1/2. -/
def unitFirstFailed : UnitResults :=
  { elapsed_time := [-1, 2], memory_physical := [-1, 1024],
    relative_error := [-1, 1/2], solver_library := [.umfpack, .umfpack],
    matrix_dimensions := [(2, 2), (2, 2)] }

/-- C8 counterexample: for a unit whose iteration 0 failed and whose only
successful iteration has relative error 1/2, the aggregate `rel_error` is the
failed iteration's sentinel `-1`, not the relative error 1/2 of a successful
iteration. -/
theorem aggregator_rel_error_from_failed_iteration_cex :
    (buildCsvRow "m" unitFirstFailed 2).rel_error = some (-1) ∧
    ¬ ((-1 : ℚ) = 1/2) := by
  exact ⟨rfl, by norm_num⟩

/-- C8 (amended). The aggregate `rel_error` of a unit is always taken from
iteration 0, whatever its status: it is iteration 0's relative error when
iteration 0 succeeded, and the sentinel `-1` when iteration 0 failed
out-of-memory — even when later iterations succeeded. -/
theorem aggregator_rel_error_is_iteration_zero (matrix_name : String)
    (num_runs : ℕ) (e : IterEnv) (rest : List IterEnv) :
    ∃ rs, runAll .umfpack (e :: rest) = .ok rs ∧
      (buildCsvRow matrix_name (postprocess rs) num_runs).rel_error =
        some (match e.outcome with
              | .outOfMemory => (-1 : ℚ)
              | .success => e.relative_error) := by
  refine ⟨_, runAll_umfpack _, ?_⟩
  cases he : e.outcome <;>
    simp [buildCsvRow, postprocess, umfpackRecord, oomSentinelRecord, he]

/-- C10. In the aggregate reduction, `mem_mean` and `mem_variance` are
`np.mean`/`np.var` over exactly the strictly positive physical-memory deltas
of the unit's iterations; every iteration whose delta is zero or negative —
also one that succeeded — is excluded from the memory statistics. -/
theorem aggregator_memory_stats_strictly_positive_only (matrix_name : String)
    (rs : List ResultRecord) (num_runs : ℕ) :
    (buildCsvRow matrix_name (postprocess rs) num_runs).mem_mean
        = npMean (positiveMemories (rs.map ResultRecord.memory_physical)) ∧
    (buildCsvRow matrix_name (postprocess rs) num_runs).mem_variance
        = npVar (positiveMemories (rs.map ResultRecord.memory_physical)) ∧
    (∀ q ∈ positiveMemories (rs.map ResultRecord.memory_physical), 0 < q) ∧
    (∀ r ∈ rs, 0 < r.memory_physical →
        (r.memory_physical : ℚ) ∈ positiveMemories (rs.map ResultRecord.memory_physical)) ∧
    (∀ r ∈ rs, r.memory_physical ≤ 0 →
        (r.memory_physical : ℚ) ∉ positiveMemories (rs.map ResultRecord.memory_physical)) := by
  refine ⟨rfl, rfl, ?_, ?_, ?_⟩
  · intro q hq
    simp only [positiveMemories, List.mem_map, List.mem_filter] at hq
    obtain ⟨d, ⟨_, hdpos⟩, hcast⟩ := hq
    rw [← hcast]
    exact_mod_cast of_decide_eq_true hdpos
  · intro r hr hpos
    simp only [positiveMemories, List.mem_map, List.mem_filter]
    exact ⟨r.memory_physical, ⟨⟨r, hr, rfl⟩, decide_eq_true hpos⟩, rfl⟩
  · intro r hr hle hmem
    simp only [positiveMemories, List.mem_map, List.mem_filter] at hmem
    obtain ⟨d, ⟨_, hdpos⟩, hcast⟩ := hmem
    have hd : d = r.memory_physical := by exact_mod_cast hcast
    have : (0 : ℤ) < d := of_decide_eq_true hdpos
    omega

end AlgebraLineare
